import Mathlib

/-!
Shallow embedding of the Slack connector subsystem of the `dust` repository
(`connectors/src/connectors/slack/index.ts` and `connectors/src/connectors/slack/bot.ts`).

Database tables (sequelize models `Connector`, `SlackConfiguration`, `SlackChannel`,
`SlackMessages`) are embedded as lists of rows inside a `Store`.  External calls
(temporal workflow launches, the Slack Web API, the Nango connection service) are
embedded as boolean/function oracles for their outcomes, and every external side
effect performed by a function is recorded in an explicit `Event` trace so that
claims about "exactly one workflow launch" or about ordering can be stated.

The `setSlackConnectorPermissions` function runs its per-channel tasks on a
`PQueue`; every queued task reads the `oldPermission` from the row snapshot fetched
before the queue is started, the tasks touch pairwise distinct channels (the input
is a JS record, so its keys are distinct), and `PQueue` runs every queued task to
completion even when one of them rejects.  The embedding therefore linearises the
tasks in `Object.entries` order: per-entry events, store updates, the
`shouldGarbageCollect` flag and the first error are each computed from the snapshot,
exactly as the concurrent original does.
-/

/-- Permission values of `ConnectorPermission` (string union in
`connectors/src/types/resources.ts`): `"none" | "read" | "write" | "read_write"`. -/
inductive ConnectorPermission
  | none
  | read
  | write
  | read_write
deriving DecidableEq, Repr

/-- Row of the `Connector` table (the fields used by the Slack connector). -/
structure ConnectorRow where
  id : Nat
  connectionId : String
  workspaceAPIKey : String
  workspaceId : String
  dataSourceName : String
  defaultNewResourcePermission : ConnectorPermission
deriving DecidableEq, Repr

/-- Row of the `SlackConfiguration` table. -/
structure SlackConfigurationRow where
  connectorId : Nat
  slackTeamId : String
  botEnabled : Bool
deriving DecidableEq, Repr

/-- Row of the `SlackChannel` table.  `createdAt` is the sequelize timestamp used by
the `ORDER BY createdAt DESC` clause of `retrieveSlackConnectorPermissions`. -/
structure SlackChannelRow where
  connectorId : Nat
  slackChannelId : String
  slackChannelName : String
  permission : ConnectorPermission
  createdAt : Nat
deriving DecidableEq, Repr

/-- Row of the `SlackMessages` table (only its `connectorId` column matters here). -/
structure SlackMessagesRow where
  connectorId : Nat
  messageTs : String
deriving DecidableEq, Repr

/-- The database state: the four tables touched by the embedded functions. -/
structure Store where
  connectors : List ConnectorRow
  slackConfigurations : List SlackConfigurationRow
  slackChannels : List SlackChannelRow
  slackMessages : List SlackMessagesRow
deriving DecidableEq, Repr

/-- The `ConnectorResource` objects returned by `retrieveSlackConnectorPermissions`. -/
structure ConnectorResource where
  provider : String
  internalId : String
  parentInternalId : Option String
  resourceType : String
  title : String
  sourceUrl : String
  expandable : Bool
  permission : ConnectorPermission
deriving DecidableEq, Repr

/-- External side effects recorded by the embedded functions. -/
inductive Event
  | updateChannelPermission (connectorId : Nat) (slackChannelId : String)
      (permission : ConnectorPermission)
  | launchBotJoined (connectorId : String) (slackChannelId : String)
  | launchGarbageCollect (connectorId : String)
  | launchSync (connectorId : String)
  | slackAppUninstall
  | nangoDeleteConnection (connectionId : String)
  | destroySlackMessages (connectorId : Nat)
  | destroySlackConfiguration (connectorId : Nat)
deriving DecidableEq, Repr

/-- `["read", "read_write"].includes(p)` — the "has read access" test used by
`setSlackConnectorPermissions`. -/
def hasReadPermission (p : ConnectorPermission) : Bool :=
  [ConnectorPermission.read, ConnectorPermission.read_write].contains p

/-! ## retrieveSlackConnectorPermissions -/

/-- The `switch (filterPermission)` of `retrieveSlackConnectorPermissions`:
`permissionToFilter` stays `[]` for any value outside the three listed cases. -/
def permissionToFilter : Option ConnectorPermission → List ConnectorPermission
  | Option.some ConnectorPermission.read =>
      [ConnectorPermission.read, ConnectorPermission.read_write]
  | Option.some ConnectorPermission.write =>
      [ConnectorPermission.write, ConnectorPermission.read_write]
  | Option.some ConnectorPermission.read_write =>
      [ConnectorPermission.read_write]
  | _ => []

/-- The `where` clause of the `SlackChannel.findAll` call: with a (truthy)
`filterPermission` it adds `permission IN permissionToFilter`. -/
def channelMatchesWhere (connectorId : Nat) (filterPermission : Option ConnectorPermission)
    (ch : SlackChannelRow) : Bool :=
  match filterPermission with
  | Option.some _ =>
      ch.connectorId == connectorId
        && (permissionToFilter filterPermission).contains ch.permission
  | Option.none => ch.connectorId == connectorId

/-- The `ORDER BY createdAt DESC, slackChannelName ASC` comparator. -/
def channelOrderLE (a b : SlackChannelRow) : Bool :=
  decide (b.createdAt < a.createdAt)
    || (a.createdAt == b.createdAt && decide (a.slackChannelName ≤ b.slackChannelName))

/-- The `SlackChannel.findAll` call of `retrieveSlackConnectorPermissions`:
filter by the `where` clause, then sort by the `order` clause. -/
def retrievedChannels (st : Store) (connectorId : Nat)
    (filterPermission : Option ConnectorPermission) : List SlackChannelRow :=
  (st.slackChannels.filter (channelMatchesWhere connectorId filterPermission)).mergeSort
    channelOrderLE

/-- The per-channel `ConnectorResource` built by `retrieveSlackConnectorPermissions`. -/
def channelToResource (slackConfig : SlackConfigurationRow) (ch : SlackChannelRow) :
    ConnectorResource :=
  let teamId := slackConfig.slackTeamId
  let channelId := ch.slackChannelId
  { provider := "slack",
    internalId := ch.slackChannelId,
    parentInternalId := Option.none,
    resourceType := "channel",
    title := ch.slackChannelName,
    sourceUrl := s!"https://app.slack.com/client/{teamId}/{channelId}",
    expandable := false,
    permission := ch.permission }

/-- JS truthiness of an optional string: `""`, `null` and `undefined` are falsy. -/
def jsTruthyString : Option String → Option String
  | Option.none => Option.none
  | Option.some s => if s == "" then Option.none else Option.some s

/-- `retrieveSlackConnectorPermissions` (index.ts, lines 286–361).  The function
performs no writes, so the embedding returns no store.  The guard is the JS
truthiness test `if (parentInternalId)`: a `null`/`undefined` *and* an empty-string
parent id both fall through to the normal path. -/
def retrieveSlackConnectorPermissions (st : Store) (connectorId : Nat)
    (parentInternalId : Option String) (filterPermission : Option ConnectorPermission) :
    Except String (List ConnectorResource) :=
  match jsTruthyString parentInternalId with
  | Option.some _ =>
      Except.error
        "Slack connector does not support permission retrieval with parentInternalId"
  | Option.none =>
  match st.connectors.find? (fun c => c.id == connectorId) with
  | Option.none => Except.error "Connector not found"
  | Option.some _ =>
  match st.slackConfigurations.find? (fun cfg => cfg.connectorId == connectorId) with
  | Option.none => Except.error "Slack configuration not found"
  | Option.some slackConfig =>
      Except.ok
        ((retrievedChannels st connectorId filterPermission).map
          (channelToResource slackConfig))

/-! ## setSlackConnectorPermissions -/

/-- The snapshot of channel rows fetched before the task queue is started:
`SlackChannel.findAll({where: {connectorId, slackChannelId: keys}})` reduced to a
record keyed by `slackChannelId` (unique per connector). -/
def channelsSnapshot (st : Store) (connectorId : Nat) (id : String) :
    Option SlackChannelRow :=
  st.slackChannels.find?
    (fun ch => ch.connectorId == connectorId && ch.slackChannelId == id)

/-- `channel.update({permission})`: rewrite the permission of the channel row. -/
def updateChannelPermission (st : Store) (connectorId : Nat) (id : String)
    (p : ConnectorPermission) : Store :=
  { st with
    slackChannels := st.slackChannels.map
      (fun ch =>
        if ch.connectorId == connectorId && ch.slackChannelId == id then
          { ch with permission := p }
        else ch) }

/-- Events produced by the queued task of one `[id, permission]` entry: an unknown
id is skipped; an unchanged permission returns early; otherwise the row update,
followed by a bot-join workflow launch when read access was just gained. -/
def entryEvents (connectorId : Nat) (lookup : String → Option SlackChannelRow)
    (e : String × ConnectorPermission) : List Event :=
  match lookup e.1 with
  | Option.none => []
  | Option.some ch =>
    if ch.permission == e.2 then []
    else
      Event.updateChannelPermission connectorId e.1 e.2 ::
        (if !hasReadPermission ch.permission && hasReadPermission e.2 then
          [Event.launchBotJoined (toString connectorId) e.1]
        else [])

/-- The error thrown by the queued task of one entry: a failed
`launchSlackBotJoinedWorkflow` when read access was just gained. -/
def entryError (botJoinedOk : String → String → Bool) (connectorId : Nat)
    (lookup : String → Option SlackChannelRow) (e : String × ConnectorPermission) :
    Option String :=
  match lookup e.1 with
  | Option.none => Option.none
  | Option.some ch =>
    if ch.permission == e.2 then Option.none
    else if !hasReadPermission ch.permission && hasReadPermission e.2 then
      if botJoinedOk (toString connectorId) e.1 then Option.none
      else Option.some "Failed to launch the Slack bot joined workflow"
    else Option.none

/-- Whether the queued task of one entry sets `shouldGarbageCollect`. -/
def entryGC (lookup : String → Option SlackChannelRow)
    (e : String × ConnectorPermission) : Bool :=
  match lookup e.1 with
  | Option.none => false
  | Option.some ch =>
      ch.permission != e.2
        && hasReadPermission ch.permission && !hasReadPermission e.2

/-- The store update performed by the queued task of one entry. -/
def entryUpdate (connectorId : Nat) (lookup : String → Option SlackChannelRow)
    (st : Store) (e : String × ConnectorPermission) : Store :=
  match lookup e.1 with
  | Option.none => st
  | Option.some ch =>
    if ch.permission == e.2 then st
    else updateChannelPermission st connectorId e.1 e.2

/-- `setSlackConnectorPermissions` (index.ts, lines 363–459).  `botJoinedOk` and
`garbageCollectOk` are the outcomes of `launchSlackBotJoinedWorkflow` and
`launchSlackGarbageCollectWorkflow`.  All queued tasks run (updates applied, events
recorded) even when one throws; the first error makes the whole call return `Err`,
skipping the garbage-collection launch. -/
def setSlackConnectorPermissions (botJoinedOk : String → String → Bool)
    (garbageCollectOk : String → Bool) (st : Store) (connectorId : Nat)
    (permissions : List (String × ConnectorPermission)) :
    Except String Unit × Store × List Event :=
  match st.connectors.find? (fun c => c.id == connectorId) with
  | Option.none => (Except.error s!"Connector not found with id {connectorId}", st, [])
  | Option.some _ =>
  match st.slackConfigurations.find? (fun cfg => cfg.connectorId == connectorId) with
  | Option.none =>
      (Except.error s!"Could not find configuration for connector id {connectorId}",
        st, [])
  | Option.some _ =>
    let lookup := channelsSnapshot st connectorId
    let st1 := permissions.foldl (entryUpdate connectorId lookup) st
    let evs := permissions.flatMap (entryEvents connectorId lookup)
    match permissions.findSome? (entryError botJoinedOk connectorId lookup) with
    | Option.some msg => (Except.error msg, st1, evs)
    | Option.none =>
      if permissions.any (entryGC lookup) then
        let evs := evs ++ [Event.launchGarbageCollect (toString connectorId)]
        if garbageCollectOk (toString connectorId) then (Except.ok (), st1, evs)
        else (Except.error "Failed to launch the Slack garbage collect workflow", st1, evs)
      else (Except.ok (), st1, evs)

/-! ## cleanupSlackConnector -/

/-- The environment variables read by `cleanupSlackConnector`. -/
structure CleanupEnv where
  nangoSlackConnectorId : Option String
  slackClientId : Option String
  slackClientSecret : Option String
deriving DecidableEq, Repr

/-- The two `destroy` calls at the end of `cleanupSlackConnector`: `SlackMessages`
rows, then the `SlackConfiguration` row, both `WHERE connectorId = ...` and both
inside the caller-supplied transaction.  `SlackChannel` rows are not touched. -/
def destroyConnectorRows (st : Store) (connectorId : Nat) (evs : List Event) :
    Except String Unit × Store × List Event :=
  (Except.ok (),
    { st with
      slackMessages := st.slackMessages.filter (fun m => m.connectorId != connectorId),
      slackConfigurations :=
        st.slackConfigurations.filter (fun c => c.connectorId != connectorId) },
    evs ++ [Event.destroySlackMessages connectorId,
            Event.destroySlackConfiguration connectorId])

/-- `cleanupSlackConnector` (index.ts, lines 192–284).  `uninstallOk` and
`nangoDeleteOk` are the outcomes of `slackClient.apps.uninstall` and
`nangoDeleteConnection`. -/
def cleanupSlackConnector (env : CleanupEnv) (uninstallOk : Bool) (nangoDeleteOk : Bool)
    (st : Store) (connectorId : Nat) : Except String Unit × Store × List Event :=
  match st.connectors.find? (fun c => c.id == connectorId) with
  | Option.none =>
      (Except.error s!"Could not find connector with id {connectorId}", st, [])
  | Option.some connector =>
  match st.slackConfigurations.find? (fun cfg => cfg.connectorId == connectorId) with
  | Option.none =>
      (Except.error s!"Could not find configuration for connector id {connectorId}",
        st, [])
  | Option.some configuration =>
    let configurations := st.slackConfigurations.filter
      (fun c => c.slackTeamId == configuration.slackTeamId)
    if configurations.length == 1 then
      match env.nangoSlackConnectorId, env.slackClientId, env.slackClientSecret with
      | Option.none, _, _ => (Except.error "NANGO_SLACK_CONNECTOR_ID is not defined", st, [])
      | _, Option.none, _ => (Except.error "SLACK_CLIENT_ID is not defined", st, [])
      | _, _, Option.none => (Except.error "SLACK_CLIENT_SECRET is not defined", st, [])
      | Option.some _, Option.some _, Option.some _ =>
        if !uninstallOk then
          (Except.error "Could not uninstall the Slack app from the user's workspace",
            st, [Event.slackAppUninstall])
        else if !nangoDeleteOk then
          (Except.error "Could not delete the Nango connection", st,
            [Event.slackAppUninstall,
             Event.nangoDeleteConnection connector.connectionId])
        else
          destroyConnectorRows st connectorId
            [Event.slackAppUninstall,
             Event.nangoDeleteConnection connector.connectionId]
    else
      destroyConnectorRows st connectorId []

/-! ## createSlackConnector -/

/-- The `DataSourceConfig` argument of `createSlackConnector`. -/
structure DataSourceConfig where
  workspaceAPIKey : String
  workspaceId : String
  dataSourceName : String
deriving DecidableEq, Repr

/-- The `client.team.info()` response: its `ok` flag and `team?.id` field. -/
structure TeamInfoResponse where
  ok : Bool
  teamId : Option String
deriving DecidableEq, Repr

/-- `createSlackConnector` (index.ts, lines 38–114).  The transaction body throws
(rollback, store unchanged) when `NANGO_SLACK_CONNECTOR_ID` is unset, returns `Err`
before any `create` when the team-info validation fails, and otherwise creates the
`Connector` row and the `SlackConfiguration` row in the same transaction.
`launchSyncOk` is the outcome of the `launchSlackSyncWorkflow` call made after the
transaction has committed. -/
def createSlackConnector (nangoSlackConnectorId : Option String)
    (teamInfo : TeamInfoResponse) (launchSyncOk : Bool) (newConnectorId : Nat)
    (st : Store) (dataSourceConfig : DataSourceConfig) (connectionId : String) :
    Except String String × Store × List Event :=
  if nangoSlackConnectorId = Option.none then
    (Except.error "NANGO_SLACK_CONNECTOR_ID is not defined", st, [])
  else if teamInfo.ok != true then
    (Except.error "Could not get slack team info.", st, [])
  else
    match teamInfo.teamId with
    | Option.none => (Except.error "Could not get slack team id.", st, [])
    | Option.some tid =>
      if tid == "" then (Except.error "Could not get slack team id.", st, [])
      else
        let connector : ConnectorRow :=
          { id := newConnectorId,
            connectionId := connectionId,
            workspaceAPIKey := dataSourceConfig.workspaceAPIKey,
            workspaceId := dataSourceConfig.workspaceId,
            dataSourceName := dataSourceConfig.dataSourceName,
            defaultNewResourcePermission := ConnectorPermission.read_write }
        let st1 := { st with
          connectors := st.connectors ++ [connector],
          slackConfigurations := st.slackConfigurations ++
            [{ slackTeamId := tid, connectorId := newConnectorId, botEnabled := false }] }
        if launchSyncOk then
          (Except.ok (toString newConnectorId), st1,
            [Event.launchSync (toString newConnectorId)])
        else
          (Except.error "Could not launch the Slack sync workflow", st1,
            [Event.launchSync (toString newConnectorId)])

/-! ## updateSlackConnector -/

/-- Error types of `ConnectorsAPIErrorResponse` used by `updateSlackConnector`. -/
inductive APIErrorType
  | connector_not_found
  | connector_oauth_target_mismatch
deriving DecidableEq, Repr

/-- Outcome of `updateSlackConnector`: a thrown exception (unset env var), an API
error response, or the connector id on success. -/
inductive UpdateOutcome
  | thrown (msg : String)
  | err (t : APIErrorType) (message : String)
  | ok (id : String)
deriving DecidableEq, Repr

/-- The `updateParams` object accumulated by `updateSlackConnector`. -/
structure UpdateParams where
  connectionId : Option String
  defaultNewResourcePermission : Option ConnectorPermission
deriving DecidableEq, Repr

/-- `c.update(updateParams)`: overwrite only the fields present in the params. -/
def applyUpdateParams (c : ConnectorRow) (p : UpdateParams) : ConnectorRow :=
  { c with
    connectionId := p.connectionId.getD c.connectionId,
    defaultNewResourcePermission :=
      p.defaultNewResourcePermission.getD c.defaultNewResourcePermission }

/-- The store after `c.update(updateParams)` on the connector row. -/
def updateConnectorRow (st : Store) (connectorId : Nat) (p : UpdateParams) : Store :=
  { st with
    connectors := st.connectors.map
      (fun c => if c.id == connectorId then applyUpdateParams c p else c) }

/-- `updateSlackConnector` (index.ts, lines 116–190).  `getConnectionTeamId` is the
`team?.id` field of the `nango_client().getConnection(...)` response for the new
connection id. -/
def updateSlackConnector (nangoSlackConnectorId : Option String)
    (getConnectionTeamId : String → Option String) (st : Store) (connectorId : Nat)
    (connectionId : Option String)
    (defaultNewResourcePermission : Option ConnectorPermission) :
    UpdateOutcome × Store :=
  if nangoSlackConnectorId = Option.none then
    (UpdateOutcome.thrown "NANGO_SLACK_CONNECTOR_ID not set", st)
  else
  match st.connectors.find? (fun c => c.id == connectorId) with
  | Option.none =>
      (UpdateOutcome.err APIErrorType.connector_not_found "Connector not found", st)
  | Option.some c =>
  match st.slackConfigurations.find? (fun cfg => cfg.connectorId == connectorId) with
  | Option.none =>
      (UpdateOutcome.err APIErrorType.connector_not_found "Slack configuration not found",
        st)
  | Option.some currentSlackConfig =>
    let finish := fun (p : UpdateParams) =>
      (UpdateOutcome.ok (toString c.id), updateConnectorRow st connectorId p)
    match jsTruthyString connectionId with
    | Option.some connId =>
      let newTeamId := jsTruthyString (getConnectionTeamId connId)
      if newTeamId != Option.some currentSlackConfig.slackTeamId then
        (UpdateOutcome.err APIErrorType.connector_oauth_target_mismatch
          "Cannot change the Slack Team of a Data Source", st)
      else
        finish { connectionId := Option.some connId,
                 defaultNewResourcePermission := defaultNewResourcePermission }
    | Option.none =>
        finish { connectionId := Option.none,
                 defaultNewResourcePermission := defaultNewResourcePermission }

/-! ## getBotEnabled / toggleSlackbot -/

/-- `getBotEnabled` (bot.ts, lines 217–234). -/
def getBotEnabled (st : Store) (connectorId : Nat) : Except String Bool :=
  match st.slackConfigurations.find? (fun cfg => cfg.connectorId == connectorId) with
  | Option.none =>
      Except.error s!"Failed to find a Slack configuration for connector {connectorId}"
  | Option.some slackConfig => Except.ok slackConfig.botEnabled

/-- `slackConfig.save()` after setting `botEnabled`: rewrite the row that
`findOne` returned, i.e. the first row with the given `connectorId`. -/
def saveBotEnabledFirst : List SlackConfigurationRow → Nat → Bool → List SlackConfigurationRow
  | [], _, _ => []
  | cfg :: rest, connectorId, b =>
    if cfg.connectorId == connectorId then { cfg with botEnabled := b } :: rest
    else cfg :: saveBotEnabledFirst rest connectorId b

/-- `toggleSlackbot` (bot.ts, lines 236–256). -/
def toggleSlackbot (st : Store) (connectorId : Nat) (botEnabled : Bool) :
    Except String Unit × Store :=
  match st.slackConfigurations.find? (fun cfg => cfg.connectorId == connectorId) with
  | Option.none =>
      (Except.error s!"Failed to find a Slack configuration for connector {connectorId}",
        st)
  | Option.some _ =>
      (Except.ok (),
        { st with
          slackConfigurations :=
            saveBotEnabledFirst st.slackConfigurations connectorId botEnabled })

/-! ## Claim-side definitions -/

/-- Spec-side restatement of the C1 permission sets: filter `read` matches
`read`/`read_write`, `write` matches `write`/`read_write`, `read_write` matches only
`read_write`, and no filter matches everything. -/
def claimFilterMatches (filterPermission : Option ConnectorPermission)
    (p : ConnectorPermission) : Bool :=
  match filterPermission with
  | Option.none => true
  | Option.some ConnectorPermission.read =>
      p == ConnectorPermission.read || p == ConnectorPermission.read_write
  | Option.some ConnectorPermission.write =>
      p == ConnectorPermission.write || p == ConnectorPermission.read_write
  | Option.some ConnectorPermission.read_write => p == ConnectorPermission.read_write
  | Option.some ConnectorPermission.none => false

/-- `true` exactly on `Event.slackAppUninstall`. -/
def isUninstallEvent : Event → Bool
  | Event.slackAppUninstall => true
  | _ => false

/-- `true` exactly on `Event.nangoDeleteConnection _`. -/
def isNangoDeleteEvent : Event → Bool
  | Event.nangoDeleteConnection _ => true
  | _ => false

/-- An external revoke call: the Slack app uninstall or the Nango connection
deletion. -/
def isExternalRevokeEvent (e : Event) : Bool :=
  isUninstallEvent e || isNangoDeleteEvent e

/-- The channel an event is about, when it is a per-channel event. -/
def eventChannelId : Event → Option String
  | Event.updateChannelPermission _ s _ => Option.some s
  | Event.launchBotJoined _ s => Option.some s
  | _ => Option.none

/-! ## Concrete fixtures for witnesses and counterexamples -/

/-- A sample connector row. -/
def sampleConnector : ConnectorRow :=
  { id := 1, connectionId := "conn-1", workspaceAPIKey := "key", workspaceId := "ws",
    dataSourceName := "ds", defaultNewResourcePermission := ConnectorPermission.read_write }

/-- A sample Slack configuration row. -/
def sampleConfig : SlackConfigurationRow :=
  { connectorId := 1, slackTeamId := "T1", botEnabled := false }

/-- Channel A with permission `read` (the spec's worked example). -/
def chanA : SlackChannelRow :=
  { connectorId := 1, slackChannelId := "A", slackChannelName := "alpha",
    permission := ConnectorPermission.read, createdAt := 3 }

/-- Channel B with permission `write`. -/
def chanB : SlackChannelRow :=
  { connectorId := 1, slackChannelId := "B", slackChannelName := "beta",
    permission := ConnectorPermission.write, createdAt := 2 }

/-- Channel C with permission `read_write`. -/
def chanC : SlackChannelRow :=
  { connectorId := 1, slackChannelId := "C", slackChannelName := "gamma",
    permission := ConnectorPermission.read_write, createdAt := 1 }

/-- Channel D with permission `none`. -/
def chanD : SlackChannelRow :=
  { connectorId := 1, slackChannelId := "D", slackChannelName := "delta",
    permission := ConnectorPermission.none, createdAt := 0 }

/-- A sample store: one connector, its configuration, four channels, one message row. -/
def sampleStore : Store :=
  { connectors := [sampleConnector],
    slackConfigurations := [sampleConfig],
    slackChannels := [chanA, chanB, chanC, chanD],
    slackMessages := [{ connectorId := 1, messageTs := "ts-1" }] }

/-- A store with no rows at all. -/
def emptyStore : Store :=
  { connectors := [], slackConfigurations := [], slackChannels := [],
    slackMessages := [] }

/-- A fully populated environment for `cleanupSlackConnector`. -/
def sampleEnv : CleanupEnv :=
  { nangoSlackConnectorId := Option.some "nango-slack",
    slackClientId := Option.some "client-id",
    slackClientSecret := Option.some "client-secret" }

/-- The `Connector` row that `createSlackConnector` inserts. -/
def createdConnectorRow (newId : Nat) (connId : String) (dsc : DataSourceConfig) :
    ConnectorRow :=
  { id := newId, connectionId := connId, workspaceAPIKey := dsc.workspaceAPIKey,
    workspaceId := dsc.workspaceId, dataSourceName := dsc.dataSourceName,
    defaultNewResourcePermission := ConnectorPermission.read_write }

/-- The `SlackConfiguration` row that `createSlackConnector` inserts. -/
def createdConfigRow (newId : Nat) (tid : String) : SlackConfigurationRow :=
  { slackTeamId := tid, connectorId := newId, botEnabled := false }

/-- A store with two connectors whose configurations share the Slack team `T1`. -/
def twoTeamStore : Store :=
  { connectors := [sampleConnector,
      { id := 2, connectionId := "conn-2", workspaceAPIKey := "key2", workspaceId := "ws2",
        dataSourceName := "ds2",
        defaultNewResourcePermission := ConnectorPermission.read_write }],
    slackConfigurations := [sampleConfig,
      { connectorId := 2, slackTeamId := "T1", botEnabled := true }],
    slackChannels := [chanA,
      { connectorId := 2, slackChannelId := "Z", slackChannelName := "zeta",
        permission := ConnectorPermission.read, createdAt := 5 }],
    slackMessages := [{ connectorId := 1, messageTs := "ts-1" },
      { connectorId := 2, messageTs := "ts-2" }] }

/-! ## Helper lemmas -/

theorem channelMatchesWhere_eq_claim (connectorId : Nat)
    (f : Option ConnectorPermission) (hf : f ≠ Option.some ConnectorPermission.none)
    (ch : SlackChannelRow) :
    channelMatchesWhere connectorId f ch
      = (ch.connectorId == connectorId && claimFilterMatches f ch.permission) := by
  match f with
  | Option.none => simp [channelMatchesWhere, claimFilterMatches]
  | Option.some ConnectorPermission.none => exact absurd rfl hf
  | Option.some ConnectorPermission.read =>
    cases hp : ch.permission <;>
      simp [channelMatchesWhere, claimFilterMatches, permissionToFilter, hp, List.contains]
  | Option.some ConnectorPermission.write =>
    cases hp : ch.permission <;>
      simp [channelMatchesWhere, claimFilterMatches, permissionToFilter, hp, List.contains]
  | Option.some ConnectorPermission.read_write =>
    cases hp : ch.permission <;>
      simp [channelMatchesWhere, claimFilterMatches, permissionToFilter, hp, List.contains]

theorem find?_saveBotEnabledFirst (l : List SlackConfigurationRow) (connectorId : Nat)
    (b : Bool) (cfg : SlackConfigurationRow)
    (h : l.find? (fun c => c.connectorId == connectorId) = Option.some cfg) :
    (saveBotEnabledFirst l connectorId b).find? (fun c => c.connectorId == connectorId)
      = Option.some { cfg with botEnabled := b } := by
  induction l with
  | nil => simp at h
  | cons hd tl ih =>
    cases hb : (hd.connectorId == connectorId) with
    | true =>
      rw [List.find?_cons_eq_some] at h
      simp only [hb, true_and, Bool.not_true, Bool.false_eq_true, false_and,
        or_false] at h
      subst h
      simp [saveBotEnabledFirst, hb]
    | false =>
      rw [List.find?_cons_eq_some] at h
      simp only [hb, Bool.false_eq_true, false_and, false_or, Bool.not_false,
        true_and] at h
      simp [saveBotEnabledFirst, hb, ih h]

/-! ## Claim theorems -/

/-- C1: for every connector and (non-`"none"`) filter value,
`retrieveSlackConnectorPermissions` succeeds and returns exactly the connector's
channels whose permission matches the claim's expansion of the filter: `read` ↦
{`read`, `read_write`}, `write` ↦ {`write`, `read_write`}, `read_write` ↦
{`read_write`}, and no filter ↦ all of the connector's channels. -/
theorem C1_retrieve_permissions_filter (st : Store) (connectorId : Nat)
    (filterPermission : Option ConnectorPermission) (c : ConnectorRow)
    (slackConfig : SlackConfigurationRow)
    (hf : filterPermission ≠ Option.some ConnectorPermission.none)
    (hc : st.connectors.find? (fun x => x.id == connectorId) = Option.some c)
    (hcfg : st.slackConfigurations.find? (fun cfg => cfg.connectorId == connectorId)
        = Option.some slackConfig) :
    retrieveSlackConnectorPermissions st connectorId Option.none filterPermission
      = Except.ok ((retrievedChannels st connectorId filterPermission).map
          (channelToResource slackConfig))
    ∧ List.Perm (retrievedChannels st connectorId filterPermission)
        (st.slackChannels.filter
          (fun ch => ch.connectorId == connectorId
            && claimFilterMatches filterPermission ch.permission)) := by
  constructor
  · simp [retrieveSlackConnectorPermissions, jsTruthyString, hc, hcfg]
  · have hfe : st.slackChannels.filter (channelMatchesWhere connectorId filterPermission)
        = st.slackChannels.filter
            (fun ch => ch.connectorId == connectorId
              && claimFilterMatches filterPermission ch.permission) :=
      List.filter_congr (fun ch _ => channelMatchesWhere_eq_claim connectorId
        filterPermission hf ch)
    rw [retrievedChannels, hfe]
    exact List.mergeSort_perm _ _

/-- C1 witness: on the spec's worked example (channels A `read`, B `write`, C
`read_write`, D `none`), filter `read` yields exactly {A, C}. -/
theorem C1_retrieve_permissions_filter_witness :
    List.Perm (retrievedChannels sampleStore 1 (Option.some ConnectorPermission.read))
      (sampleStore.slackChannels.filter
        (fun ch => ch.connectorId == 1
          && claimFilterMatches (Option.some ConnectorPermission.read) ch.permission)) :=
  (C1_retrieve_permissions_filter sampleStore 1 (Option.some ConnectorPermission.read)
    sampleConnector sampleConfig (by decide) (by decide) (by decide)).2

/-- C9 counterexample: with the non-null `parentInternalId` `""` (falsy in JS, so
`if (parentInternalId)` does not fire), the call does not return an error on the
sample store — it returns the full channel list — and its result does depend on the
store: on an empty store the same call reads the `Connector` table and fails with
"Connector not found" instead. -/
theorem C9_retrieve_empty_parent_counterexample :
    (retrieveSlackConnectorPermissions sampleStore 1 (Option.some "")
        Option.none).isOk = true
    ∧ retrieveSlackConnectorPermissions emptyStore 1 (Option.some "") Option.none
      = Except.error "Connector not found" :=
  ⟨rfl, rfl⟩

/-- C9 (amended): for every call whose `parentInternalId` is *truthy* (non-null and
non-empty), `retrieveSlackConnectorPermissions` returns the rejection error, and its
result does not depend on the store at all (it reads and writes no store row; the
embedding returns no store because the function performs no writes); a
`parentInternalId` of `""` is falsy in JS and the call proceeds exactly as with no
parent. -/
theorem C9_retrieve_truthy_parent_rejected (st st' : Store) (connectorId : Nat)
    (parent : String) (filterPermission : Option ConnectorPermission)
    (hp : parent ≠ "") :
    retrieveSlackConnectorPermissions st connectorId (Option.some parent) filterPermission
      = Except.error
          "Slack connector does not support permission retrieval with parentInternalId"
    ∧ retrieveSlackConnectorPermissions st connectorId (Option.some parent) filterPermission
      = retrieveSlackConnectorPermissions st' connectorId (Option.some parent)
          filterPermission
    ∧ retrieveSlackConnectorPermissions st connectorId (Option.some "") filterPermission
      = retrieveSlackConnectorPermissions st connectorId Option.none
          filterPermission := by
  have hne : (parent == "") = false := beq_eq_false_iff_ne.mpr hp
  refine ⟨?_, ?_, rfl⟩ <;>
    simp [retrieveSlackConnectorPermissions, jsTruthyString, hne]

/-- C9 (amended) witness: the truthy parent id `"p"` is rejected on the sample
store. -/
theorem C9_retrieve_truthy_parent_rejected_witness :
    retrieveSlackConnectorPermissions sampleStore 1 (Option.some "p") Option.none
      = Except.error
          "Slack connector does not support permission retrieval with parentInternalId" :=
  (C9_retrieve_truthy_parent_rejected sampleStore sampleStore 1 "p" Option.none
    (by decide)).1

/-- C6: when credential validation fails (`team.info` not ok, or no team id), the
create call returns an error with the store unchanged: no `Connector` row and no
`SlackConfiguration` row is created.  When validation succeeds, both rows are
appended by the same transaction. -/
theorem C6_create_no_partial_state (nid : Option String) (teamInfo : TeamInfoResponse)
    (launchSyncOk : Bool) (newId : Nat) (st : Store) (dsc : DataSourceConfig)
    (connId : String) :
    ((teamInfo.ok = false ∨ teamInfo.teamId = Option.none
        ∨ teamInfo.teamId = Option.some "") →
      (∃ msg, (createSlackConnector nid teamInfo launchSyncOk newId st dsc connId).1
          = Except.error msg)
      ∧ (createSlackConnector nid teamInfo launchSyncOk newId st dsc connId).2.1 = st)
    ∧ (∀ tid, nid ≠ Option.none → teamInfo.ok = true → teamInfo.teamId = Option.some tid →
        tid ≠ "" →
        (createSlackConnector nid teamInfo launchSyncOk newId st dsc connId).2.1.connectors
          = st.connectors ++ [createdConnectorRow newId connId dsc]
        ∧ (createSlackConnector nid teamInfo launchSyncOk newId st dsc
              connId).2.1.slackConfigurations
          = st.slackConfigurations ++ [createdConfigRow newId tid]) := by
  constructor
  · intro hfail
    cases hnid : nid with
    | none => exact ⟨⟨_, rfl⟩, rfl⟩
    | some n =>
      cases hok : teamInfo.ok with
      | false =>
        refine ⟨⟨"Could not get slack team info.", ?_⟩, ?_⟩ <;>
          simp [createSlackConnector, hok]
      | true =>
        rcases hfail with hok' | htid | htid
        · rw [hok] at hok'; cases hok'
        · refine ⟨⟨"Could not get slack team id.", ?_⟩, ?_⟩ <;>
            simp [createSlackConnector, hok, htid]
        · refine ⟨⟨"Could not get slack team id.", ?_⟩, ?_⟩ <;>
            simp [createSlackConnector, hok, htid]
  · intro tid hnid hok htid hne
    obtain ⟨n, hn⟩ := Option.ne_none_iff_exists'.mp hnid
    cases hsync : launchSyncOk <;>
      simp [createSlackConnector, hn, hok, htid, hne, hsync, createdConnectorRow,
        createdConfigRow]

/-- C6 witness: a failed `team.info` call (ok = false) yields an error and leaves a
concrete store unchanged. -/
theorem C6_create_no_partial_state_witness :
    (∃ msg, (createSlackConnector (Option.some "nango-slack")
        { ok := false, teamId := Option.none } true 7 sampleStore
        { workspaceAPIKey := "k", workspaceId := "w", dataSourceName := "d" } "conn-9").1
      = Except.error msg)
    ∧ (createSlackConnector (Option.some "nango-slack")
        { ok := false, teamId := Option.none } true 7 sampleStore
        { workspaceAPIKey := "k", workspaceId := "w", dataSourceName := "d" }
        "conn-9").2.1 = sampleStore :=
  (C6_create_no_partial_state (Option.some "nango-slack")
    { ok := false, teamId := Option.none } true 7 sampleStore
    { workspaceAPIKey := "k", workspaceId := "w", dataSourceName := "d" } "conn-9").1
    (Or.inl rfl)

/-- C10: round trip of the bot-enabled flag.  With a `SlackConfiguration` row,
`toggleSlackbot b` succeeds and a subsequent `getBotEnabled` returns `Ok b`; with no
configuration row, both operations return an error and `toggleSlackbot` leaves the
store unchanged. -/
theorem C10_toggle_getBotEnabled_round_trip (st : Store) (connectorId : Nat) (b : Bool) :
    (∀ cfg, st.slackConfigurations.find? (fun x => x.connectorId == connectorId)
        = Option.some cfg →
      (toggleSlackbot st connectorId b).1 = Except.ok ()
      ∧ getBotEnabled (toggleSlackbot st connectorId b).2 connectorId = Except.ok b)
    ∧ (st.slackConfigurations.find? (fun x => x.connectorId == connectorId)
        = Option.none →
      (∃ msg, toggleSlackbot st connectorId b = (Except.error msg, st))
      ∧ (∃ msg, getBotEnabled st connectorId = Except.error msg)) := by
  constructor
  · intro cfg hcfg
    constructor
    · simp [toggleSlackbot, hcfg]
    · simp only [toggleSlackbot, hcfg]
      simp [getBotEnabled, find?_saveBotEnabledFirst st.slackConfigurations connectorId b
        cfg hcfg]
  · intro hnone
    refine ⟨⟨s!"Failed to find a Slack configuration for connector {connectorId}", ?_⟩,
        ⟨s!"Failed to find a Slack configuration for connector {connectorId}", ?_⟩⟩ <;>
      simp [toggleSlackbot, getBotEnabled, hnone]

/-- C10 witness: toggling the bot on for the sample store's connector 1 succeeds and
reads back as enabled. -/
theorem C10_toggle_getBotEnabled_round_trip_witness :
    (toggleSlackbot sampleStore 1 true).1 = Except.ok ()
    ∧ getBotEnabled (toggleSlackbot sampleStore 1 true).2 1 = Except.ok true :=
  (C10_toggle_getBotEnabled_round_trip sampleStore 1 true).1 sampleConfig (by decide)

/-- C8: `updateSlackConnector` never changes the Slack team binding of a connector:
the `SlackConfiguration` table (hence its `slackTeamId`) is untouched by every call,
and when a (truthy) new `connectionId` resolves to a missing team id or to a team id
different from the stored one, the call returns a `connector_oauth_target_mismatch`
error and leaves the whole store — in particular the `Connector` row — unchanged. -/
theorem C8_update_preserves_slack_team (nid : Option String)
    (getConnectionTeamId : String → Option String) (st : Store) (connectorId : Nat)
    (connectionId : Option String) (perm : Option ConnectorPermission) :
    (updateSlackConnector nid getConnectionTeamId st connectorId connectionId
        perm).2.slackConfigurations = st.slackConfigurations
    ∧ (∀ connId c cfg, nid ≠ Option.none →
        st.connectors.find? (fun x => x.id == connectorId) = Option.some c →
        st.slackConfigurations.find? (fun x => x.connectorId == connectorId)
          = Option.some cfg →
        jsTruthyString connectionId = Option.some connId →
        jsTruthyString (getConnectionTeamId connId) ≠ Option.some cfg.slackTeamId →
        updateSlackConnector nid getConnectionTeamId st connectorId connectionId perm
          = (UpdateOutcome.err APIErrorType.connector_oauth_target_mismatch
              "Cannot change the Slack Team of a Data Source", st)) := by
  constructor
  · cases hnid : nid with
    | none => simp [updateSlackConnector]
    | some n =>
      cases hc : st.connectors.find? (fun x => x.id == connectorId) with
      | none => simp [updateSlackConnector, hc]
      | some c =>
        cases hcfg : st.slackConfigurations.find?
            (fun x => x.connectorId == connectorId) with
        | none => simp [updateSlackConnector, hc, hcfg]
        | some cfg =>
          cases hconn : jsTruthyString connectionId with
          | none => simp [updateSlackConnector, hc, hcfg, hconn, updateConnectorRow]
          | some connId =>
            cases hne : (jsTruthyString (getConnectionTeamId connId)
                != Option.some cfg.slackTeamId) <;>
              simp [updateSlackConnector, hc, hcfg, hconn, hne, updateConnectorRow]
  · intro connId c cfg hnid hc hcfg hconn hteam
    obtain ⟨n, hn⟩ := Option.ne_none_iff_exists'.mp hnid
    have hne : (jsTruthyString (getConnectionTeamId connId)
        != Option.some cfg.slackTeamId) = true := by
      simp [bne_iff_ne, hteam]
    simp [updateSlackConnector, hn, hc, hcfg, hconn, hne]

/-- C8 witness: pointing the sample connector at a connection that resolves to team
`T2` (stored team is `T1`) is rejected with `connector_oauth_target_mismatch` and
the store is unchanged. -/
theorem C8_update_preserves_slack_team_witness :
    updateSlackConnector (Option.some "nango-slack") (fun _ => Option.some "T2")
      sampleStore 1 (Option.some "conn-new") Option.none
      = (UpdateOutcome.err APIErrorType.connector_oauth_target_mismatch
          "Cannot change the Slack Team of a Data Source", sampleStore) :=
  (C8_update_preserves_slack_team (Option.some "nango-slack")
    (fun _ => Option.some "T2") sampleStore 1 (Option.some "conn-new") Option.none).2
    "conn-new" sampleConnector sampleConfig (by decide) (by decide) (by decide)
    (by decide) (by decide)

/-- C3: when the connector's configuration is the only one with its `slackTeamId`,
deletion issues exactly one external revoke (one Slack app uninstall and one Nango
connection deletion); when the team is shared with another configuration, deletion
issues zero external revoke calls and leaves the sibling's rows (configurations,
channels, messages of other connectors) untouched. -/
theorem C3_cleanup_revoke_iff_last (env : CleanupEnv) (uninstallOk nangoDeleteOk : Bool)
    (st : Store) (connectorId : Nat) (connector : ConnectorRow)
    (configuration : SlackConfigurationRow)
    (hc : st.connectors.find? (fun c => c.id == connectorId) = Option.some connector)
    (hcfg : st.slackConfigurations.find? (fun cfg => cfg.connectorId == connectorId)
        = Option.some configuration)
    (he1 : env.nangoSlackConnectorId ≠ Option.none)
    (he2 : env.slackClientId ≠ Option.none)
    (he3 : env.slackClientSecret ≠ Option.none) :
    ((st.slackConfigurations.filter
        (fun c => c.slackTeamId == configuration.slackTeamId)).length = 1 →
      uninstallOk = true → nangoDeleteOk = true →
      ((cleanupSlackConnector env uninstallOk nangoDeleteOk st
          connectorId).2.2.filter isUninstallEvent).length = 1
      ∧ ((cleanupSlackConnector env uninstallOk nangoDeleteOk st
          connectorId).2.2.filter isNangoDeleteEvent).length = 1
      ∧ (cleanupSlackConnector env uninstallOk nangoDeleteOk st connectorId).1
          = Except.ok ())
    ∧ ((st.slackConfigurations.filter
        (fun c => c.slackTeamId == configuration.slackTeamId)).length ≠ 1 →
      ((cleanupSlackConnector env uninstallOk nangoDeleteOk st
          connectorId).2.2.filter isExternalRevokeEvent).length = 0
      ∧ (cleanupSlackConnector env uninstallOk nangoDeleteOk st connectorId).1
          = Except.ok ()
      ∧ (cleanupSlackConnector env uninstallOk nangoDeleteOk st
          connectorId).2.1.connectors = st.connectors
      ∧ (cleanupSlackConnector env uninstallOk nangoDeleteOk st
          connectorId).2.1.slackChannels = st.slackChannels
      ∧ (∀ cfg ∈ st.slackConfigurations, cfg.connectorId ≠ connectorId →
          cfg ∈ (cleanupSlackConnector env uninstallOk nangoDeleteOk st
            connectorId).2.1.slackConfigurations)
      ∧ (∀ m ∈ st.slackMessages, m.connectorId ≠ connectorId →
          m ∈ (cleanupSlackConnector env uninstallOk nangoDeleteOk st
            connectorId).2.1.slackMessages)) := by
  obtain ⟨n1, he1'⟩ := Option.ne_none_iff_exists'.mp he1
  obtain ⟨n2, he2'⟩ := Option.ne_none_iff_exists'.mp he2
  obtain ⟨n3, he3'⟩ := Option.ne_none_iff_exists'.mp he3
  constructor
  · intro hlen hu hn
    have hbeq : ((st.slackConfigurations.filter
        (fun c => c.slackTeamId == configuration.slackTeamId)).length == 1) = true := by
      simp [hlen]
    refine ⟨?_, ?_, ?_⟩ <;>
      simp [cleanupSlackConnector, hc, hcfg, hbeq, he1', he2', he3', hu, hn,
        destroyConnectorRows, isUninstallEvent, isNangoDeleteEvent]
  · intro hlen
    have hbeq : ((st.slackConfigurations.filter
        (fun c => c.slackTeamId == configuration.slackTeamId)).length == 1) = false := by
      simp [hlen]
    refine ⟨?_, ?_, ?_, ?_, ?_, ?_⟩
    · simp [cleanupSlackConnector, hc, hcfg, hbeq, destroyConnectorRows,
        isExternalRevokeEvent, isUninstallEvent, isNangoDeleteEvent]
    · simp [cleanupSlackConnector, hc, hcfg, hbeq, destroyConnectorRows]
    · simp [cleanupSlackConnector, hc, hcfg, hbeq, destroyConnectorRows]
    · simp [cleanupSlackConnector, hc, hcfg, hbeq, destroyConnectorRows]
    · intro cfg hm hne
      simp only [cleanupSlackConnector, hc, hcfg, hbeq, destroyConnectorRows]
      exact List.mem_filter.mpr ⟨hm, by simp [hne]⟩
    · intro m hm hne
      simp only [cleanupSlackConnector, hc, hcfg, hbeq, destroyConnectorRows]
      exact List.mem_filter.mpr ⟨hm, by simp [hne]⟩

/-- C3 witness: deleting connector 1 in the two-connector store sharing team `T1`
issues zero external revoke calls. -/
theorem C3_cleanup_revoke_iff_last_witness :
    ((cleanupSlackConnector sampleEnv true true twoTeamStore
        1).2.2.filter isExternalRevokeEvent).length = 0 :=
  ((C3_cleanup_revoke_iff_last sampleEnv true true twoTeamStore 1 sampleConnector
    sampleConfig (by decide) (by decide) (by decide) (by decide) (by decide)).2
    (by decide)).1

/-- C4 counterexample: deleting the sample store's only connector leaves its
`SlackChannel` rows in place and performs the external revoke (Slack app uninstall,
Nango connection deletion) *before* the local row deletions, contradicting the
claim that all `SlackChannel` rows are deleted and that the revoke happens after the
local database cleanup. -/
theorem C4_cleanup_order_counterexample :
    (cleanupSlackConnector sampleEnv true true sampleStore 1).2.1.slackChannels
      = sampleStore.slackChannels
    ∧ (cleanupSlackConnector sampleEnv true true sampleStore 1).2.2
      = [Event.slackAppUninstall, Event.nangoDeleteConnection "conn-1",
         Event.destroySlackMessages 1, Event.destroySlackConfiguration 1]
    ∧ (cleanupSlackConnector sampleEnv true true sampleStore 1).1 = Except.ok () :=
  ⟨by decide, by decide, rfl⟩

/-- C4 (amended): within the caller-supplied transaction, `cleanupSlackConnector`
deletes the connector's `SlackMessages` rows and its `SlackConfiguration` row but
not its `SlackChannel` rows, and, when the connector is the last one for its Slack
team, it performs the external revoke *before* those local deletions; a failed
revoke aborts the call with every local row still in place. -/
theorem C4_cleanup_local_rows_and_order (env : CleanupEnv)
    (uninstallOk nangoDeleteOk : Bool) (st : Store) (connectorId : Nat)
    (connector : ConnectorRow) (configuration : SlackConfigurationRow)
    (hc : st.connectors.find? (fun c => c.id == connectorId) = Option.some connector)
    (hcfg : st.slackConfigurations.find? (fun cfg => cfg.connectorId == connectorId)
        = Option.some configuration)
    (he1 : env.nangoSlackConnectorId ≠ Option.none)
    (he2 : env.slackClientId ≠ Option.none)
    (he3 : env.slackClientSecret ≠ Option.none)
    (hlen : (st.slackConfigurations.filter
        (fun c => c.slackTeamId == configuration.slackTeamId)).length = 1) :
    (uninstallOk = false →
      (∃ msg, (cleanupSlackConnector env uninstallOk nangoDeleteOk st connectorId).1
          = Except.error msg)
      ∧ (cleanupSlackConnector env uninstallOk nangoDeleteOk st connectorId).2.1 = st)
    ∧ (uninstallOk = true → nangoDeleteOk = true →
      (cleanupSlackConnector env uninstallOk nangoDeleteOk st connectorId).1
          = Except.ok ()
      ∧ (cleanupSlackConnector env uninstallOk nangoDeleteOk st
          connectorId).2.1.slackChannels = st.slackChannels
      ∧ (cleanupSlackConnector env uninstallOk nangoDeleteOk st
          connectorId).2.1.slackMessages
        = st.slackMessages.filter (fun m => m.connectorId != connectorId)
      ∧ (cleanupSlackConnector env uninstallOk nangoDeleteOk st
          connectorId).2.1.slackConfigurations
        = st.slackConfigurations.filter (fun c => c.connectorId != connectorId)
      ∧ (cleanupSlackConnector env uninstallOk nangoDeleteOk st connectorId).2.2
        = [Event.slackAppUninstall,
           Event.nangoDeleteConnection connector.connectionId,
           Event.destroySlackMessages connectorId,
           Event.destroySlackConfiguration connectorId]) := by
  obtain ⟨n1, he1'⟩ := Option.ne_none_iff_exists'.mp he1
  obtain ⟨n2, he2'⟩ := Option.ne_none_iff_exists'.mp he2
  obtain ⟨n3, he3'⟩ := Option.ne_none_iff_exists'.mp he3
  have hbeq : ((st.slackConfigurations.filter
      (fun c => c.slackTeamId == configuration.slackTeamId)).length == 1) = true := by
    simp [hlen]
  constructor
  · intro hu
    refine ⟨⟨"Could not uninstall the Slack app from the user's workspace", ?_⟩, ?_⟩ <;>
      simp [cleanupSlackConnector, hc, hcfg, hbeq, he1', he2', he3', hu]
  · intro hu hn
    refine ⟨?_, ?_, ?_, ?_, ?_⟩ <;>
      simp [cleanupSlackConnector, hc, hcfg, hbeq, he1', he2', he3', hu, hn,
        destroyConnectorRows]

/-- C4 (amended) witness: on the sample store, the successful deletion keeps the
channel rows and produces the revoke-then-destroy trace. -/
theorem C4_cleanup_local_rows_and_order_witness :
    (cleanupSlackConnector sampleEnv true true sampleStore 1).2.1.slackChannels
      = sampleStore.slackChannels
    ∧ (cleanupSlackConnector sampleEnv true true sampleStore 1).2.2
      = [Event.slackAppUninstall, Event.nangoDeleteConnection
          sampleConnector.connectionId, Event.destroySlackMessages 1,
         Event.destroySlackConfiguration 1] :=
  ⟨((C4_cleanup_local_rows_and_order sampleEnv true true sampleStore 1 sampleConnector
      sampleConfig (by decide) (by decide) (by decide) (by decide) (by decide)
      (by decide)).2 rfl rfl).2.1,
   ((C4_cleanup_local_rows_and_order sampleEnv true true sampleStore 1 sampleConnector
      sampleConfig (by decide) (by decide) (by decide) (by decide) (by decide)
      (by decide)).2 rfl rfl).2.2.2.2⟩

theorem entryEvents_eq_nil_of_lookup_none (connectorId : Nat)
    (lookup : String → Option SlackChannelRow) (e : String × ConnectorPermission)
    (hl : lookup e.1 = Option.none) : entryEvents connectorId lookup e = [] := by
  unfold entryEvents
  rw [hl]

theorem botJoined_mem_entryEvents (connectorId : Nat)
    (lookup : String → Option SlackChannelRow) (e : String × ConnectorPermission)
    (s id' : String) (ch : SlackChannelRow) (hl : lookup e.1 = Option.some ch) :
    Event.launchBotJoined s id' ∈ entryEvents connectorId lookup e
      ↔ s = toString connectorId ∧ id' = e.1 ∧ (ch.permission == e.2) = false
        ∧ hasReadPermission ch.permission = false ∧ hasReadPermission e.2 = true := by
  unfold entryEvents
  rw [hl]
  cases hp : (ch.permission == e.2) with
  | true => simp [hp]
  | false =>
    cases hro : hasReadPermission ch.permission <;>
      cases hrn : hasReadPermission e.2 <;> simp [hp, hro, hrn]

theorem updateEvent_mem_entryEvents (connectorId : Nat)
    (lookup : String → Option SlackChannelRow) (e : String × ConnectorPermission)
    (cid' : Nat) (id' : String) (p' : ConnectorPermission) (ch : SlackChannelRow)
    (hl : lookup e.1 = Option.some ch) :
    Event.updateChannelPermission cid' id' p' ∈ entryEvents connectorId lookup e
      ↔ cid' = connectorId ∧ id' = e.1 ∧ p' = e.2
        ∧ (ch.permission == e.2) = false := by
  unfold entryEvents
  rw [hl]
  cases hp : (ch.permission == e.2) with
  | true => simp [hp]
  | false =>
    cases hro : hasReadPermission ch.permission <;>
      cases hrn : hasReadPermission e.2 <;> simp [hp, hro, hrn]

theorem gc_not_mem_entryEvents (connectorId : Nat)
    (lookup : String → Option SlackChannelRow) (e : String × ConnectorPermission)
    (s : String) :
    Event.launchGarbageCollect s ∉ entryEvents connectorId lookup e := by
  unfold entryEvents
  cases hl : lookup e.1 with
  | none => simp
  | some ch =>
    cases hp : (ch.permission == e.2) with
    | true => simp [hp]
    | false =>
      cases hro : hasReadPermission ch.permission <;>
        cases hrn : hasReadPermission e.2 <;> simp [hp, hro, hrn]

theorem gc_not_mem_flatMap_entryEvents (connectorId : Nat)
    (lookup : String → Option SlackChannelRow)
    (entries : List (String × ConnectorPermission)) (s : String) :
    Event.launchGarbageCollect s ∉ entries.flatMap (entryEvents connectorId lookup) := by
  intro hmem
  obtain ⟨e, _, hev⟩ := List.mem_flatMap.mp hmem
  exact gc_not_mem_entryEvents connectorId lookup e s hev

theorem eventChannelId_of_mem_entryEvents (connectorId : Nat)
    (lookup : String → Option SlackChannelRow) (e : String × ConnectorPermission)
    (ev : Event) (hev : ev ∈ entryEvents connectorId lookup e) :
    eventChannelId ev = Option.some e.1 := by
  unfold entryEvents at hev
  cases hl : lookup e.1 <;> rw [hl] at hev
  · simp at hev
  case some ch =>
    cases hp : (ch.permission == e.2) with
    | true => simp [hp] at hev
    | false =>
      cases hb : (!hasReadPermission ch.permission && hasReadPermission e.2) with
      | false =>
        simp [hp, hb] at hev
        subst hev
        rfl
      | true =>
        simp [hp, hb] at hev
        rcases hev with h | h <;> subst h <;> rfl

theorem count_botJoined_eq_zero_of_not_mem (connectorId : Nat)
    (lookup : String → Option SlackChannelRow)
    (entries : List (String × ConnectorPermission)) (id : String)
    (hid : id ∉ entries.map Prod.fst) :
    (entries.flatMap (entryEvents connectorId lookup)).count
      (Event.launchBotJoined (toString connectorId) id) = 0 := by
  rw [List.count_eq_zero]
  intro hmem
  obtain ⟨e, he, hev⟩ := List.mem_flatMap.mp hmem
  have hch := eventChannelId_of_mem_entryEvents connectorId lookup e _ hev
  simp only [eventChannelId, Option.some.injEq] at hch
  exact hid (by rw [hch]; exact List.mem_map_of_mem Prod.fst he)

theorem count_botJoined_entryEvents_gaining (connectorId : Nat)
    (lookup : String → Option SlackChannelRow) (id : String) (p : ConnectorPermission)
    (ch : SlackChannelRow) (hl : lookup id = Option.some ch)
    (hne : (ch.permission == p) = false)
    (hold : hasReadPermission ch.permission = false)
    (hnew : hasReadPermission p = true) :
    (entryEvents connectorId lookup (id, p)).count
      (Event.launchBotJoined (toString connectorId) id) = 1 := by
  have hlist : entryEvents connectorId lookup (id, p)
      = [Event.updateChannelPermission connectorId id p,
         Event.launchBotJoined (toString connectorId) id] := by
    simp [entryEvents, hl, hne, hold, hnew]
  rw [hlist, List.count_cons_of_ne (by simp), List.count_cons_self, List.count_nil]

theorem count_botJoined_flatMap_gaining (connectorId : Nat)
    (lookup : String → Option SlackChannelRow)
    (entries : List (String × ConnectorPermission)) (id : String)
    (p : ConnectorPermission) (ch : SlackChannelRow)
    (hmem : (id, p) ∈ entries) (hnd : (entries.map Prod.fst).Nodup)
    (hl : lookup id = Option.some ch) (hne : (ch.permission == p) = false)
    (hold : hasReadPermission ch.permission = false)
    (hnew : hasReadPermission p = true) :
    (entries.flatMap (entryEvents connectorId lookup)).count
      (Event.launchBotJoined (toString connectorId) id) = 1 := by
  induction entries with
  | nil => simp at hmem
  | cons hd tl ih =>
    rw [List.flatMap_cons, List.count_append]
    rw [List.map_cons, List.nodup_cons] at hnd
    rcases List.mem_cons.mp hmem with heq | hmem'
    · rw [← heq] at hnd ⊢
      rw [count_botJoined_entryEvents_gaining connectorId lookup id p ch hl hne hold
          hnew,
        count_botJoined_eq_zero_of_not_mem connectorId lookup tl id hnd.1]
    · have h0 : (entryEvents connectorId lookup hd).count
          (Event.launchBotJoined (toString connectorId) id) = 0 := by
        rw [List.count_eq_zero]
        intro hm
        have hch := eventChannelId_of_mem_entryEvents connectorId lookup hd _ hm
        simp only [eventChannelId, Option.some.injEq] at hch
        exact hnd.1 (by rw [← hch]; exact List.mem_map_of_mem Prod.fst hmem')
      rw [h0, ih hmem' hnd.2]

theorem count_botJoined_flatMap_not_gaining (connectorId : Nat)
    (lookup : String → Option SlackChannelRow)
    (entries : List (String × ConnectorPermission)) (id : String)
    (hng : ∀ p ch, (id, p) ∈ entries → lookup id = Option.some ch →
      ¬((ch.permission == p) = false ∧ hasReadPermission ch.permission = false
        ∧ hasReadPermission p = true)) :
    (entries.flatMap (entryEvents connectorId lookup)).count
      (Event.launchBotJoined (toString connectorId) id) = 0 := by
  rw [List.count_eq_zero]
  intro hmem
  obtain ⟨e, he, hev⟩ := List.mem_flatMap.mp hmem
  have hch := eventChannelId_of_mem_entryEvents connectorId lookup e _ hev
  simp only [eventChannelId, Option.some.injEq] at hch
  cases hl : lookup e.1 with
  | none =>
    rw [entryEvents_eq_nil_of_lookup_none connectorId lookup e hl] at hev
    simp at hev
  | some ch =>
    rw [botJoined_mem_entryEvents connectorId lookup e _ _ ch hl] at hev
    have he' : (id, e.2) ∈ entries := by
      rw [hch, Prod.mk.eta]
      exact he
    have hl' : lookup id = Option.some ch := by
      rw [hch]
      exact hl
    exact hng e.2 ch he' hl' ⟨hev.2.2.1, hev.2.2.2.1, hev.2.2.2.2⟩

theorem entryError_eq_some_of_gaining (botJoinedOk : String → String → Bool)
    (connectorId : Nat) (lookup : String → Option SlackChannelRow) (id : String)
    (p : ConnectorPermission) (ch : SlackChannelRow)
    (hl : lookup id = Option.some ch) (hne : (ch.permission == p) = false)
    (hold : hasReadPermission ch.permission = false)
    (hnew : hasReadPermission p = true)
    (hB : botJoinedOk (toString connectorId) id = false) :
    entryError botJoinedOk connectorId lookup (id, p)
      = Option.some "Failed to launch the Slack bot joined workflow" := by
  simp [entryError, hl, hne, hold, hnew, hB]

theorem entryGC_eq_true_iff (lookup : String → Option SlackChannelRow)
    (e : String × ConnectorPermission) :
    entryGC lookup e = true
      ↔ ∃ ch, lookup e.1 = Option.some ch ∧ ch.permission ≠ e.2
          ∧ hasReadPermission ch.permission = true
          ∧ hasReadPermission e.2 = false := by
  unfold entryGC
  cases hl : lookup e.1 with
  | none => simp
  | some ch =>
    simp [Bool.and_eq_true, bne_iff_ne, Bool.not_eq_true', and_assoc]

theorem setPerm_trace_eq (botJoinedOk : String → String → Bool)
    (garbageCollectOk : String → Bool) (st : Store) (connectorId : Nat)
    (entries : List (String × ConnectorPermission)) (c : ConnectorRow)
    (cfg : SlackConfigurationRow)
    (hc : st.connectors.find? (fun x => x.id == connectorId) = Option.some c)
    (hcfg : st.slackConfigurations.find? (fun x => x.connectorId == connectorId)
        = Option.some cfg) :
    (setSlackConnectorPermissions botJoinedOk garbageCollectOk st connectorId
        entries).2.2
      = entries.flatMap (entryEvents connectorId (channelsSnapshot st connectorId))
        ++ (if (entries.findSome?
                (entryError botJoinedOk connectorId
                  (channelsSnapshot st connectorId))).isNone
              && entries.any (entryGC (channelsSnapshot st connectorId))
            then [Event.launchGarbageCollect (toString connectorId)] else []) := by
  simp only [setSlackConnectorPermissions, hc, hcfg]
  cases hfs : entries.findSome?
      (entryError botJoinedOk connectorId (channelsSnapshot st connectorId)) <;>
    cases hany : entries.any (entryGC (channelsSnapshot st connectorId)) <;>
      cases hG : garbageCollectOk (toString connectorId) <;> simp [hfs, hany, hG]

theorem setPerm_store_eq (botJoinedOk : String → String → Bool)
    (garbageCollectOk : String → Bool) (st : Store) (connectorId : Nat)
    (entries : List (String × ConnectorPermission)) (c : ConnectorRow)
    (cfg : SlackConfigurationRow)
    (hc : st.connectors.find? (fun x => x.id == connectorId) = Option.some c)
    (hcfg : st.slackConfigurations.find? (fun x => x.connectorId == connectorId)
        = Option.some cfg) :
    (setSlackConnectorPermissions botJoinedOk garbageCollectOk st connectorId
        entries).2.1
      = entries.foldl (entryUpdate connectorId (channelsSnapshot st connectorId)) st := by
  simp only [setSlackConnectorPermissions, hc, hcfg]
  cases hfs : entries.findSome?
      (entryError botJoinedOk connectorId (channelsSnapshot st connectorId)) <;>
    cases hany : entries.any (entryGC (channelsSnapshot st connectorId)) <;>
      cases hG : garbageCollectOk (toString connectorId) <;> simp [hfs, hany, hG]

theorem setPerm_error_of_findSome (botJoinedOk : String → String → Bool)
    (garbageCollectOk : String → Bool) (st : Store) (connectorId : Nat)
    (entries : List (String × ConnectorPermission)) (c : ConnectorRow)
    (cfg : SlackConfigurationRow) (msg : String)
    (hc : st.connectors.find? (fun x => x.id == connectorId) = Option.some c)
    (hcfg : st.slackConfigurations.find? (fun x => x.connectorId == connectorId)
        = Option.some cfg)
    (hfs : entries.findSome?
        (entryError botJoinedOk connectorId (channelsSnapshot st connectorId))
      = Option.some msg) :
    (setSlackConnectorPermissions botJoinedOk garbageCollectOk st connectorId
        entries).1 = Except.error msg := by
  simp only [setSlackConnectorPermissions, hc, hcfg]
  simp [hfs]

theorem setPerm_ok (botJoinedOk : String → String → Bool)
    (garbageCollectOk : String → Bool) (st : Store) (connectorId : Nat)
    (entries : List (String × ConnectorPermission)) (c : ConnectorRow)
    (cfg : SlackConfigurationRow)
    (hc : st.connectors.find? (fun x => x.id == connectorId) = Option.some c)
    (hcfg : st.slackConfigurations.find? (fun x => x.connectorId == connectorId)
        = Option.some cfg)
    (hfs : entries.findSome?
        (entryError botJoinedOk connectorId (channelsSnapshot st connectorId))
      = Option.none)
    (hgc : entries.any (entryGC (channelsSnapshot st connectorId)) = false
      ∨ garbageCollectOk (toString connectorId) = true) :
    (setSlackConnectorPermissions botJoinedOk garbageCollectOk st connectorId
        entries).1 = Except.ok () := by
  simp only [setSlackConnectorPermissions, hc, hcfg]
  rcases hgc with hgc | hgc
  · simp [hfs, hgc]
  · cases hany : entries.any (entryGC (channelsSnapshot st connectorId)) <;>
      simp [hfs, hany, hgc]

/-- C2: for every permission batch (distinct ids, as JS record keys) and resource
whose stored permission changes, gaining read access launches exactly one bot-join
workflow for that resource (and zero for resources that do not gain read access),
a failed bot-join launch makes the whole call return an error, and the
garbage-collection workflow appears at most once in the trace, only as the final
event after every per-resource update, exactly when (in a non-aborted call) some
resource lost read access. -/
theorem C2_setPermissions_botJoin_and_gc (botJoinedOk : String → String → Bool)
    (garbageCollectOk : String → Bool) (st : Store) (connectorId : Nat)
    (permissions : List (String × ConnectorPermission)) (c : ConnectorRow)
    (cfg : SlackConfigurationRow)
    (hc : st.connectors.find? (fun x => x.id == connectorId) = Option.some c)
    (hcfg : st.slackConfigurations.find? (fun x => x.connectorId == connectorId)
        = Option.some cfg)
    (hnd : (permissions.map Prod.fst).Nodup) :
    (∀ id p ch, (id, p) ∈ permissions →
      channelsSnapshot st connectorId id = Option.some ch →
      ch.permission ≠ p → hasReadPermission ch.permission = false →
      hasReadPermission p = true →
      ((setSlackConnectorPermissions botJoinedOk garbageCollectOk st connectorId
          permissions).2.2.count (Event.launchBotJoined (toString connectorId) id)) = 1
      ∧ (botJoinedOk (toString connectorId) id = false →
          ∃ msg, (setSlackConnectorPermissions botJoinedOk garbageCollectOk st
            connectorId permissions).1 = Except.error msg))
    ∧ (∀ id, (∀ p ch, (id, p) ∈ permissions →
          channelsSnapshot st connectorId id = Option.some ch →
          ¬(ch.permission ≠ p ∧ hasReadPermission ch.permission = false
            ∧ hasReadPermission p = true)) →
        ((setSlackConnectorPermissions botJoinedOk garbageCollectOk st connectorId
          permissions).2.2.count
            (Event.launchBotJoined (toString connectorId) id)) = 0)
    ∧ (∃ base, (∀ s, Event.launchGarbageCollect s ∉ base)
        ∧ ((setSlackConnectorPermissions botJoinedOk garbageCollectOk st connectorId
              permissions).2.2 = base
          ∨ (setSlackConnectorPermissions botJoinedOk garbageCollectOk st connectorId
              permissions).2.2
            = base ++ [Event.launchGarbageCollect (toString connectorId)]))
    ∧ (permissions.findSome? (entryError botJoinedOk connectorId
          (channelsSnapshot st connectorId)) = Option.none →
        (Event.launchGarbageCollect (toString connectorId)
            ∈ (setSlackConnectorPermissions botJoinedOk garbageCollectOk st connectorId
                permissions).2.2
          ↔ ∃ e ∈ permissions, ∃ ch,
              channelsSnapshot st connectorId e.1 = Option.some ch
              ∧ ch.permission ≠ e.2 ∧ hasReadPermission ch.permission = true
              ∧ hasReadPermission e.2 = false)) := by
  have htr := setPerm_trace_eq botJoinedOk garbageCollectOk st connectorId permissions
    c cfg hc hcfg
  have hsuffix0 : ∀ id, ((if (permissions.findSome?
        (entryError botJoinedOk connectorId (channelsSnapshot st connectorId))).isNone
          && permissions.any (entryGC (channelsSnapshot st connectorId))
        then [Event.launchGarbageCollect (toString connectorId)] else []).count
      (Event.launchBotJoined (toString connectorId) id)) = 0 := by
    intro id
    rw [List.count_eq_zero]
    cases ((permissions.findSome?
        (entryError botJoinedOk connectorId (channelsSnapshot st connectorId))).isNone
          && permissions.any (entryGC (channelsSnapshot st connectorId))) <;> simp
  refine ⟨?_, ?_, ?_, ?_⟩
  · intro id p ch hmem hl hne hold hnew
    have hne' : (ch.permission == p) = false := beq_eq_false_iff_ne.mpr hne
    constructor
    · rw [htr, List.count_append, hsuffix0 id,
        count_botJoined_flatMap_gaining connectorId (channelsSnapshot st connectorId)
          permissions id p ch hmem hnd hl hne' hold hnew]
    · intro hB
      cases hfs : permissions.findSome?
          (entryError botJoinedOk connectorId (channelsSnapshot st connectorId)) with
      | none =>
        exact absurd
          (List.findSome?_eq_none_iff.mp hfs (id, p) hmem)
          (by rw [entryError_eq_some_of_gaining botJoinedOk connectorId
            (channelsSnapshot st connectorId) id p ch hl hne' hold hnew hB]; simp)
      | some msg =>
        exact ⟨msg, setPerm_error_of_findSome botJoinedOk garbageCollectOk st
          connectorId permissions c cfg msg hc hcfg hfs⟩
  · intro id hng
    have hng' : ∀ p ch, (id, p) ∈ permissions →
        channelsSnapshot st connectorId id = Option.some ch →
        ¬((ch.permission == p) = false ∧ hasReadPermission ch.permission = false
          ∧ hasReadPermission p = true) := by
      intro p ch hmem hl hcontra
      exact hng p ch hmem hl
        ⟨beq_eq_false_iff_ne.mp hcontra.1, hcontra.2.1, hcontra.2.2⟩
    rw [htr, List.count_append, hsuffix0 id,
      count_botJoined_flatMap_not_gaining connectorId (channelsSnapshot st connectorId)
        permissions id hng']
  · refine ⟨permissions.flatMap (entryEvents connectorId
      (channelsSnapshot st connectorId)), ?_, ?_⟩
    · intro s
      exact gc_not_mem_flatMap_entryEvents connectorId (channelsSnapshot st connectorId)
        permissions s
    · rw [htr]
      cases ((permissions.findSome?
          (entryError botJoinedOk connectorId (channelsSnapshot st connectorId))).isNone
            && permissions.any (entryGC (channelsSnapshot st connectorId))) with
      | false => exact Or.inl (by simp)
      | true => exact Or.inr rfl
  · intro hfs
    rw [htr, hfs]
    cases hany : permissions.any (entryGC (channelsSnapshot st connectorId)) with
    | false =>
      constructor
      · intro hmem
        rcases List.mem_append.mp hmem with h | h
        · exact absurd h (gc_not_mem_flatMap_entryEvents connectorId
            (channelsSnapshot st connectorId) permissions (toString connectorId))
        · simp at h
      · intro ⟨e, he, ch, hl, hne, hro, hrn⟩
        have hgc : entryGC (channelsSnapshot st connectorId) e = true :=
          (entryGC_eq_true_iff (channelsSnapshot st connectorId) e).mpr
            ⟨ch, hl, hne, hro, hrn⟩
        rw [List.any_eq_false] at hany
        exact absurd hgc (by simp [hany e he])
    | true =>
      simp only [Option.isNone_none, Bool.true_and]
      constructor
      · intro _
        obtain ⟨e, he, hgc⟩ := List.any_eq_true.mp hany
        obtain ⟨ch, hl, hne, hro, hrn⟩ :=
          (entryGC_eq_true_iff (channelsSnapshot st connectorId) e).mp hgc
        exact ⟨e, he, ch, hl, hne, hro, hrn⟩
      · intro _
        exact List.mem_append_right _ (by simp)

/-- C2 witness: granting `read_write` to channel B (stored permission `write`) in
the sample store launches exactly one bot-join workflow for B. -/
theorem C2_setPermissions_botJoin_and_gc_witness :
    ((setSlackConnectorPermissions (fun _ _ => true) (fun _ => true) sampleStore 1
        [("B", ConnectorPermission.read_write)]).2.2.count
      (Event.launchBotJoined (toString 1) "B")) = 1 :=
  ((C2_setPermissions_botJoin_and_gc (fun _ _ => true) (fun _ => true) sampleStore 1
      [("B", ConnectorPermission.read_write)] sampleConnector sampleConfig
      (by decide) (by decide) (by decide)).1 "B" ConnectorPermission.read_write chanB
      (by decide) (by decide) (by decide) (by decide) (by decide)).1

theorem find?_map_of_pred_invariant {α : Type} (l : List α) (p : α → Bool) (F : α → α)
    (hF : ∀ a, p (F a) = p a) :
    (l.map F).find? p = (l.find? p).map F := by
  induction l with
  | nil => rfl
  | cons hd tl ih =>
    simp only [List.map_cons, List.find?]
    rw [hF hd]
    cases hp : p hd with
    | true => rfl
    | false => exact ih

theorem channelsSnapshot_updateChannelPermission (st : Store) (cid : Nat)
    (id id' : String) (p : ConnectorPermission) :
    channelsSnapshot (updateChannelPermission st cid id p) cid id'
      = if id' = id then
          (channelsSnapshot st cid id').map (fun ch => { ch with permission := p })
        else channelsSnapshot st cid id' := by
  have hF : ∀ a : SlackChannelRow,
      (fun ch => ch.connectorId == cid && ch.slackChannelId == id')
        ((fun ch => if ch.connectorId == cid && ch.slackChannelId == id then
            { ch with permission := p } else ch) a)
      = (fun ch => ch.connectorId == cid && ch.slackChannelId == id') a := by
    intro a
    cases h : (a.connectorId == cid && a.slackChannelId == id) <;> simp [h]
  unfold channelsSnapshot updateChannelPermission
  dsimp only
  rw [find?_map_of_pred_invariant st.slackChannels _ _ hF]
  by_cases hid : id' = id
  · rw [if_pos hid]
    cases hf : st.slackChannels.find?
        (fun ch => ch.connectorId == cid && ch.slackChannelId == id') with
    | none => rfl
    | some ch =>
      have hpred := List.find?_some hf
      rw [Bool.and_eq_true, beq_iff_eq, beq_iff_eq] at hpred
      have hcid : ch.slackChannelId = id := hid ▸ hpred.2
      simp [hpred.1, hcid]
  · rw [if_neg hid]
    cases hf : st.slackChannels.find?
        (fun ch => ch.connectorId == cid && ch.slackChannelId == id') with
    | none => rfl
    | some ch =>
      have hpred := List.find?_some hf
      rw [Bool.and_eq_true, beq_iff_eq, beq_iff_eq] at hpred
      simp [hpred.1, hpred.2, hid]

theorem entryUpdate_eq_of_lookup_none (cid : Nat)
    (lookup : String → Option SlackChannelRow) (st' : Store)
    (e : String × ConnectorPermission) (hl : lookup e.1 = Option.none) :
    entryUpdate cid lookup st' e = st' := by
  simp [entryUpdate, hl]

theorem entryUpdate_eq_of_same (cid : Nat)
    (lookup : String → Option SlackChannelRow) (st' : Store)
    (e : String × ConnectorPermission) (ch : SlackChannelRow)
    (hl : lookup e.1 = Option.some ch) (hp : (ch.permission == e.2) = true) :
    entryUpdate cid lookup st' e = st' := by
  simp [entryUpdate, hl, hp]

theorem entryUpdate_eq_of_diff (cid : Nat)
    (lookup : String → Option SlackChannelRow) (st' : Store)
    (e : String × ConnectorPermission) (ch : SlackChannelRow)
    (hl : lookup e.1 = Option.some ch) (hp : (ch.permission == e.2) = false) :
    entryUpdate cid lookup st' e = updateChannelPermission st' cid e.1 e.2 := by
  simp [entryUpdate, hl, hp]

theorem entryUpdate_preserves (cid : Nat) (lookup : String → Option SlackChannelRow)
    (st' : Store) (e : String × ConnectorPermission) :
    (entryUpdate cid lookup st' e).connectors = st'.connectors
    ∧ (entryUpdate cid lookup st' e).slackConfigurations = st'.slackConfigurations
    ∧ (entryUpdate cid lookup st' e).slackMessages = st'.slackMessages := by
  cases hl : lookup e.1 with
  | none => rw [entryUpdate_eq_of_lookup_none cid lookup st' e hl]; exact ⟨rfl, rfl, rfl⟩
  | some ch =>
    cases hp : (ch.permission == e.2) with
    | true => rw [entryUpdate_eq_of_same cid lookup st' e ch hl hp]; exact ⟨rfl, rfl, rfl⟩
    | false =>
      rw [entryUpdate_eq_of_diff cid lookup st' e ch hl hp]
      exact ⟨rfl, rfl, rfl⟩

theorem foldl_entryUpdate_preserves (cid : Nat)
    (lookup : String → Option SlackChannelRow)
    (entries : List (String × ConnectorPermission)) (st' : Store) :
    (entries.foldl (entryUpdate cid lookup) st').connectors = st'.connectors
    ∧ (entries.foldl (entryUpdate cid lookup) st').slackConfigurations
      = st'.slackConfigurations
    ∧ (entries.foldl (entryUpdate cid lookup) st').slackMessages
      = st'.slackMessages := by
  induction entries generalizing st' with
  | nil => exact ⟨rfl, rfl, rfl⟩
  | cons hd tl ih =>
    rw [List.foldl_cons]
    have hstep := entryUpdate_preserves cid lookup st' hd
    have hrest := ih (entryUpdate cid lookup st' hd)
    exact ⟨hrest.1.trans hstep.1, hrest.2.1.trans hstep.2.1,
      hrest.2.2.trans hstep.2.2⟩

theorem channelsSnapshot_entryUpdate_other (cid : Nat)
    (lookup : String → Option SlackChannelRow) (st' : Store)
    (e : String × ConnectorPermission) (id : String) (hne : id ≠ e.1) :
    channelsSnapshot (entryUpdate cid lookup st' e) cid id
      = channelsSnapshot st' cid id := by
  cases hl : lookup e.1 with
  | none => rw [entryUpdate_eq_of_lookup_none cid lookup st' e hl]
  | some ch =>
    cases hp : (ch.permission == e.2) with
    | true => rw [entryUpdate_eq_of_same cid lookup st' e ch hl hp]
    | false =>
      rw [entryUpdate_eq_of_diff cid lookup st' e ch hl hp,
        channelsSnapshot_updateChannelPermission, if_neg hne]

theorem channelsSnapshot_foldl_of_not_mem (cid : Nat)
    (lookup : String → Option SlackChannelRow)
    (entries : List (String × ConnectorPermission)) (st' : Store) (id : String)
    (hid : id ∉ entries.map Prod.fst) :
    channelsSnapshot (entries.foldl (entryUpdate cid lookup) st') cid id
      = channelsSnapshot st' cid id := by
  induction entries generalizing st' with
  | nil => rfl
  | cons hd tl ih =>
    rw [List.map_cons] at hid
    have h1 : id ≠ hd.1 := by
      intro h
      exact hid (h ▸ List.mem_cons_self _ _)
    have h2 : id ∉ tl.map Prod.fst := fun h => hid (List.mem_cons_of_mem _ h)
    rw [List.foldl_cons, ih _ h2,
      channelsSnapshot_entryUpdate_other cid lookup st' hd id h1]

theorem channelsSnapshot_foldl_mem (cid : Nat)
    (lookup : String → Option SlackChannelRow)
    (entries : List (String × ConnectorPermission)) (st' : Store) (id : String)
    (p : ConnectorPermission) (hmem : (id, p) ∈ entries)
    (hnd : (entries.map Prod.fst).Nodup) :
    channelsSnapshot (entries.foldl (entryUpdate cid lookup) st') cid id
      = match lookup id with
        | Option.none => channelsSnapshot st' cid id
        | Option.some ch =>
            if ch.permission == p then channelsSnapshot st' cid id
            else (channelsSnapshot st' cid id).map
              (fun c0 => { c0 with permission := p }) := by
  induction entries generalizing st' with
  | nil => simp at hmem
  | cons hd tl ih =>
    rw [List.map_cons, List.nodup_cons] at hnd
    rw [List.foldl_cons]
    rcases List.mem_cons.mp hmem with heq | hmem'
    · have hid : id ∉ tl.map Prod.fst := by
        rw [← heq] at hnd
        exact hnd.1
      rw [channelsSnapshot_foldl_of_not_mem cid lookup tl _ id hid, ← heq]
      cases hl : lookup id with
      | none => rw [entryUpdate_eq_of_lookup_none cid lookup st' (id, p) hl]
      | some ch =>
        cases hp : (ch.permission == p) with
        | true =>
          rw [entryUpdate_eq_of_same cid lookup st' (id, p) ch hl hp]
          simp [hp]
        | false =>
          rw [entryUpdate_eq_of_diff cid lookup st' (id, p) ch hl hp,
            channelsSnapshot_updateChannelPermission, if_pos rfl]
          simp [hp]
    · have h1 : id ≠ hd.1 := by
        intro h
        exact hnd.1 (h ▸ List.mem_map_of_mem Prod.fst hmem')
      rw [ih _ hmem' hnd.2,
        channelsSnapshot_entryUpdate_other cid lookup st' hd id h1]

theorem foldl_eq_init_of_id {α β : Type} (l : List β) (F : α → β → α) (a : α)
    (h : ∀ b ∈ l, ∀ x, F x b = x) : l.foldl F a = a := by
  induction l generalizing a with
  | nil => rfl
  | cons hd tl ih =>
    rw [List.foldl_cons, h hd (List.mem_cons_self _ _)]
    exact ih a (fun b hb x => h b (List.mem_cons_of_mem _ hb) x)

theorem second_call_entry_trivial (cid : Nat) (st : Store)
    (entries : List (String × ConnectorPermission)) (e : String × ConnectorPermission)
    (hmem : e ∈ entries) (hnd : (entries.map Prod.fst).Nodup) :
    entryEvents cid (channelsSnapshot
        (entries.foldl (entryUpdate cid (channelsSnapshot st cid)) st) cid) e = []
    ∧ (∀ B : String → String → Bool, entryError B cid (channelsSnapshot
        (entries.foldl (entryUpdate cid (channelsSnapshot st cid)) st) cid) e
      = Option.none)
    ∧ entryGC (channelsSnapshot
        (entries.foldl (entryUpdate cid (channelsSnapshot st cid)) st) cid) e = false
    ∧ (∀ s', entryUpdate cid (channelsSnapshot
        (entries.foldl (entryUpdate cid (channelsSnapshot st cid)) st) cid) s' e
      = s') := by
  obtain ⟨id, p⟩ := e
  cases hl : channelsSnapshot st cid id with
  | none =>
    have hsnap := channelsSnapshot_foldl_mem cid (channelsSnapshot st cid) entries st
      id p hmem hnd
    rw [hl] at hsnap
    simp only [] at hsnap
    refine ⟨?_, ?_, ?_, ?_⟩ <;>
      simp [entryEvents, entryError, entryGC, entryUpdate, hsnap]
  | some ch =>
    have hsnap := channelsSnapshot_foldl_mem cid (channelsSnapshot st cid) entries st
      id p hmem hnd
    rw [hl] at hsnap
    cases hp : (ch.permission == p) with
    | true =>
      simp only [hp, if_true] at hsnap
      have hpe : ch.permission = p := eq_of_beq hp
      refine ⟨?_, ?_, ?_, ?_⟩ <;>
        simp [entryEvents, entryError, entryGC, entryUpdate, hsnap, hp, hpe]
    | false =>
      simp only [hp, Bool.false_eq_true, if_false, Option.map_some'] at hsnap
      refine ⟨?_, ?_, ?_, ?_⟩ <;>
        simp [entryEvents, entryError, entryGC, entryUpdate, hsnap]

/-- C5: `setSlackConnectorPermissions` is idempotent: after a first application of a
batch (distinct ids), applying the same batch again succeeds, leaves the store
exactly as it was after the first application, and performs no side effect at all —
no channel update, no bot-join launch and no garbage-collection launch (its trace is
empty), regardless of the workflow oracles. -/
theorem C5_setPermissions_idempotent (B B2 : String → String → Bool)
    (G G2 : String → Bool) (st : Store) (connectorId : Nat)
    (permissions : List (String × ConnectorPermission)) (c : ConnectorRow)
    (cfg : SlackConfigurationRow)
    (hc : st.connectors.find? (fun x => x.id == connectorId) = Option.some c)
    (hcfg : st.slackConfigurations.find? (fun x => x.connectorId == connectorId)
        = Option.some cfg)
    (hnd : (permissions.map Prod.fst).Nodup) :
    (setSlackConnectorPermissions B2 G2
        (setSlackConnectorPermissions B G st connectorId permissions).2.1 connectorId
        permissions).1 = Except.ok ()
    ∧ (setSlackConnectorPermissions B2 G2
        (setSlackConnectorPermissions B G st connectorId permissions).2.1 connectorId
        permissions).2.1
      = (setSlackConnectorPermissions B G st connectorId permissions).2.1
    ∧ (setSlackConnectorPermissions B2 G2
        (setSlackConnectorPermissions B G st connectorId permissions).2.1 connectorId
        permissions).2.2 = [] := by
  have hst1 : (setSlackConnectorPermissions B G st connectorId permissions).2.1
      = permissions.foldl (entryUpdate connectorId (channelsSnapshot st connectorId))
          st :=
    setPerm_store_eq B G st connectorId permissions c cfg hc hcfg
  rw [hst1]
  have hpres := foldl_entryUpdate_preserves connectorId
    (channelsSnapshot st connectorId) permissions st
  have hc1 : (permissions.foldl
      (entryUpdate connectorId (channelsSnapshot st connectorId)) st).connectors.find?
      (fun x => x.id == connectorId) = Option.some c := by
    rw [hpres.1]
    exact hc
  have hcfg1 : (permissions.foldl
      (entryUpdate connectorId (channelsSnapshot st connectorId))
      st).slackConfigurations.find?
      (fun x => x.connectorId == connectorId) = Option.some cfg := by
    rw [hpres.2.1]
    exact hcfg
  have htriv := fun e (he : e ∈ permissions) =>
    second_call_entry_trivial connectorId st permissions e he hnd
  have hfs2 : permissions.findSome? (entryError B2 connectorId (channelsSnapshot
      (permissions.foldl (entryUpdate connectorId (channelsSnapshot st connectorId))
        st) connectorId)) = Option.none :=
    List.findSome?_eq_none_iff.mpr (fun e he => (htriv e he).2.1 B2)
  have hany2 : permissions.any (entryGC (channelsSnapshot
      (permissions.foldl (entryUpdate connectorId (channelsSnapshot st connectorId))
        st) connectorId)) = false := by
    rw [List.any_eq_false]
    intro e he
    simp [(htriv e he).2.2.1]
  have hfm : permissions.flatMap (entryEvents connectorId (channelsSnapshot
      (permissions.foldl (entryUpdate connectorId (channelsSnapshot st connectorId))
        st) connectorId)) = [] :=
    List.flatMap_eq_nil_iff.mpr (fun e he => (htriv e he).1)
  refine ⟨?_, ?_, ?_⟩
  · exact setPerm_ok B2 G2 _ connectorId permissions c cfg hc1 hcfg1 hfs2
      (Or.inl hany2)
  · rw [setPerm_store_eq B2 G2 _ connectorId permissions c cfg hc1 hcfg1]
    exact foldl_eq_init_of_id permissions _ _
      (fun e he s' => (htriv e he).2.2.2 s')
  · rw [setPerm_trace_eq B2 G2 _ connectorId permissions c cfg hc1 hcfg1]
    simp [hfm, hfs2, hany2]

/-- C5 witness: re-applying the batch granting `read_write` to channel B leaves the
store unchanged and produces an empty trace. -/
theorem C5_setPermissions_idempotent_witness :
    (setSlackConnectorPermissions (fun _ _ => true) (fun _ => true)
        (setSlackConnectorPermissions (fun _ _ => true) (fun _ => true) sampleStore 1
          [("B", ConnectorPermission.read_write)]).2.1 1
        [("B", ConnectorPermission.read_write)]).2.2 = [] :=
  (C5_setPermissions_idempotent (fun _ _ => true) (fun _ _ => true) (fun _ => true)
    (fun _ => true) sampleStore 1 [("B", ConnectorPermission.read_write)]
    sampleConnector sampleConfig (by decide) (by decide) (by decide)).2.2

/-- C7: an external id with no matching channel row is skipped: the whole call
behaves exactly as if the unknown entry were absent from the batch (same result,
same store, same trace), no event ever concerns the unknown id, and when every
remaining entry succeeds (no bot-join launch error; garbage-collection launch ok)
the call returns success, not an error. -/
theorem C7_unknown_id_skipped (B : String → String → Bool) (G : String → Bool)
    (st : Store) (connectorId : Nat) (l1 l2 : List (String × ConnectorPermission))
    (id0 : String) (p0 : ConnectorPermission) (c : ConnectorRow)
    (cfg : SlackConfigurationRow)
    (hc : st.connectors.find? (fun x => x.id == connectorId) = Option.some c)
    (hcfg : st.slackConfigurations.find? (fun x => x.connectorId == connectorId)
        = Option.some cfg)
    (hmiss : channelsSnapshot st connectorId id0 = Option.none) :
    setSlackConnectorPermissions B G st connectorId (l1 ++ (id0, p0) :: l2)
      = setSlackConnectorPermissions B G st connectorId (l1 ++ l2)
    ∧ (∀ p', Event.updateChannelPermission connectorId id0 p'
        ∉ (setSlackConnectorPermissions B G st connectorId
            (l1 ++ (id0, p0) :: l2)).2.2)
    ∧ (∀ s, Event.launchBotJoined s id0
        ∉ (setSlackConnectorPermissions B G st connectorId
            (l1 ++ (id0, p0) :: l2)).2.2)
    ∧ ((∀ e ∈ l1 ++ l2, entryError B connectorId (channelsSnapshot st connectorId) e
          = Option.none) →
        G (toString connectorId) = true →
        (setSlackConnectorPermissions B G st connectorId
          (l1 ++ (id0, p0) :: l2)).1 = Except.ok ()) := by
  have he0ev : entryEvents connectorId (channelsSnapshot st connectorId) (id0, p0)
      = [] :=
    entryEvents_eq_nil_of_lookup_none connectorId _ (id0, p0) hmiss
  have he0err : entryError B connectorId (channelsSnapshot st connectorId) (id0, p0)
      = Option.none := by
    simp [entryError, hmiss]
  have he0gc : entryGC (channelsSnapshot st connectorId) (id0, p0) = false := by
    simp [entryGC, hmiss]
  have he0upd : ∀ s', entryUpdate connectorId (channelsSnapshot st connectorId) s'
      (id0, p0) = s' :=
    fun s' => entryUpdate_eq_of_lookup_none connectorId _ s' (id0, p0) hmiss
  have hfold : (l1 ++ (id0, p0) :: l2).foldl
        (entryUpdate connectorId (channelsSnapshot st connectorId)) st
      = (l1 ++ l2).foldl
        (entryUpdate connectorId (channelsSnapshot st connectorId)) st := by
    rw [List.foldl_append, List.foldl_append, List.foldl_cons, he0upd]
  have hflat : (l1 ++ (id0, p0) :: l2).flatMap
        (entryEvents connectorId (channelsSnapshot st connectorId))
      = (l1 ++ l2).flatMap
        (entryEvents connectorId (channelsSnapshot st connectorId)) := by
    rw [List.flatMap_append, List.flatMap_append, List.flatMap_cons, he0ev,
      List.nil_append]
  have hfs : (l1 ++ (id0, p0) :: l2).findSome?
        (entryError B connectorId (channelsSnapshot st connectorId))
      = (l1 ++ l2).findSome?
        (entryError B connectorId (channelsSnapshot st connectorId)) := by
    rw [List.findSome?_append, List.findSome?_append,
      List.findSome?_cons_of_isNone _ (by rw [he0err]; rfl)]
  have hany : (l1 ++ (id0, p0) :: l2).any
        (entryGC (channelsSnapshot st connectorId))
      = (l1 ++ l2).any (entryGC (channelsSnapshot st connectorId)) := by
    rw [List.any_append, List.any_append, List.any_cons, he0gc, Bool.false_or]
  have heq : setSlackConnectorPermissions B G st connectorId (l1 ++ (id0, p0) :: l2)
      = setSlackConnectorPermissions B G st connectorId (l1 ++ l2) := by
    simp only [setSlackConnectorPermissions, hc, hcfg]
    rw [hfold, hflat, hfs, hany]
  have hnot : ∀ ev : Event, eventChannelId ev = Option.some id0 →
      ev ∉ (setSlackConnectorPermissions B G st connectorId
        (l1 ++ (id0, p0) :: l2)).2.2 := by
    intro ev hch hmem
    rw [setPerm_trace_eq B G st connectorId _ c cfg hc hcfg] at hmem
    rcases List.mem_append.mp hmem with h | h
    · obtain ⟨e, he, hev⟩ := List.mem_flatMap.mp h
      have hch2 := eventChannelId_of_mem_entryEvents connectorId _ e ev hev
      rw [hch, Option.some.injEq] at hch2
      have hnone : channelsSnapshot st connectorId e.1 = Option.none := by
        rw [← hch2]
        exact hmiss
      rw [entryEvents_eq_nil_of_lookup_none connectorId _ e hnone] at hev
      simp at hev
    · split at h
      · rw [List.mem_singleton] at h
        subst h
        simp [eventChannelId] at hch
      · simp at h
  refine ⟨heq, ?_, ?_, ?_⟩
  · intro p'
    exact hnot (Event.updateChannelPermission connectorId id0 p') rfl
  · intro s
    exact hnot (Event.launchBotJoined s id0) rfl
  · intro hsucc hG
    rw [heq]
    exact setPerm_ok B G st connectorId (l1 ++ l2) c cfg hc hcfg
      (List.findSome?_eq_none_iff.mpr hsucc) (Or.inr hG)

/-- C7 witness: a batch containing only the unknown channel id `X` succeeds on the
sample store. -/
theorem C7_unknown_id_skipped_witness :
    (setSlackConnectorPermissions (fun _ _ => true) (fun _ => true) sampleStore 1
        [("X", ConnectorPermission.read)]).1 = Except.ok () :=
  (C7_unknown_id_skipped (fun _ _ => true) (fun _ => true) sampleStore 1 [] []
    "X" ConnectorPermission.read sampleConnector sampleConfig (by decide) (by decide)
    (by decide)).2.2.2 (by simp) rfl
